import Mathlib

/-!
# Verification of the bootup-check script of rbxAdminServer

Shallow embedding of the merged bootup-check script (dependency
remediation stage + port validation/remediation stage + orchestrator).
JavaScript runtime values that flow through the script are modelled by
`JSVal`; the JS numeric coercions the script relies on (`>=`/`<=`
comparison against number literals, truthiness tests, `parseInt`) are
modelled explicitly.  Numbers are modelled as rationals (`ℚ`), with
`JSVal.nan` standing for the JS `NaN`; every numeric value the script
itself produces is an integer.
-/

set_option autoImplicit false

/-- A JavaScript runtime value, restricted to the shapes that can reach
the script's checks: numbers (as rationals), `NaN`, strings, booleans,
`null` and `undefined`. -/
inductive JSVal where
  | num (q : ℚ)
  | nan
  | str (s : String)
  | jbool (b : Bool)
  | null
  | undef
deriving DecidableEq, Repr

/-- Strip leading and trailing whitespace from a character list
(JS `String.prototype.trim`, over the characters of the string). -/
def listTrim (l : List Char) : List Char :=
  ((l.dropWhile Char.isWhitespace).reverse.dropWhile Char.isWhitespace).reverse

/-- JS `s.trim()`. -/
def jsTrim (s : String) : String :=
  String.mk (listTrim s.data)

/-- JS `s.toLowerCase()` (ASCII case folding suffices for the values the
script compares: `"yes"`, digit strings). -/
def jsToLower (s : String) : String :=
  String.mk (s.data.map Char.toLower)

/-- `answer.trim().toLowerCase()` — the transform `askUser` applies to
every operator answer before resolving (part_000 line 21). -/
def jsTrimLower (s : String) : String :=
  jsToLower (jsTrim s)

/-- Numeric value of a list of decimal digit characters. -/
def digitsVal (l : List Char) : Nat :=
  l.foldl (fun a c => a * 10 + (c.toNat - 48)) 0

/-- Decimal literal body: digits, optionally followed by a fraction part
(at least one digit overall, as in JS `Number`: ".5" and "5." parse). -/
def parseDecimalCore (l : List Char) : Option ℚ :=
  let ds := l.takeWhile Char.isDigit
  let rest := l.dropWhile Char.isDigit
  match rest with
  | [] => if ds.isEmpty then none else some ((digitsVal ds : ℚ))
  | c :: rest2 =>
    if c = '.' then
      let fs := rest2.takeWhile Char.isDigit
      let rest3 := rest2.dropWhile Char.isDigit
      if rest3.isEmpty then
        if ds.isEmpty && fs.isEmpty then none
        else some ((digitsVal ds : ℚ) + (digitsVal fs : ℚ) / (10 ^ fs.length))
      else none
    else none

/-- JS `ToNumber` on a string (modelled subset: optional sign and decimal
literal after trimming; the empty/whitespace string is `0`; anything else
is `NaN`.  Hex/exponent forms are outside the values this program meets). -/
def jsStrToNumber (s : String) : Option ℚ :=
  let t := jsTrim s
  if t = "" then some 0
  else
    match t.toList with
    | [] => none
    | c :: r =>
      if c = '+' then parseDecimalCore r
      else if c = '-' then (parseDecimalCore r).map (fun q => -q)
      else parseDecimalCore (c :: r)

/-- JS `ToNumber`; `none` stands for `NaN`. -/
def toNumber : JSVal → Option ℚ
  | JSVal.num q => some q
  | JSVal.nan => none
  | JSVal.str s => jsStrToNumber s
  | JSVal.jbool b => some (if b then 1 else 0)
  | JSVal.null => some 0
  | JSVal.undef => none

/-- JS `v >= n` where `n` is a number literal: numeric comparison, false
whenever the coercion yields `NaN`. -/
def jsGE (v : JSVal) (n : ℚ) : Bool :=
  match toNumber v with
  | none => false
  | some q => decide (n ≤ q)

/-- JS `v <= n` where `n` is a number literal. -/
def jsLE (v : JSVal) (n : ℚ) : Bool :=
  match toNumber v with
  | none => false
  | some q => decide (q ≤ n)

/-- JS falsiness: `undefined`, `null`, `NaN`, `false`, `0`, `""`. -/
def jsFalsy : JSVal → Bool
  | JSVal.num q => decide (q = 0)
  | JSVal.nan => true
  | JSVal.str s => decide (s = "")
  | JSVal.jbool b => !b
  | JSVal.null => true
  | JSVal.undef => true

/-- `const isPortValid = (port) => port >= 1 && port <= 65535;`
(part_000 line 106), with JS comparison semantics. -/
def isPortValid (port : JSVal) : Bool :=
  jsGE port 1 && jsLE port 65535

/-- Digit-prefix step of `parseInt`: longest leading run of decimal
digits; `NaN` if there is none. -/
def parseIntDigits (sign : Int) (l : List Char) : JSVal :=
  let ds := l.takeWhile Char.isDigit
  if ds.isEmpty then JSVal.nan
  else JSVal.num ((sign * (digitsVal ds : Int) : Int) : ℚ)

/-- JS `parseInt(s, 10)`: skip leading whitespace, optional single sign,
then the longest run of decimal digits; `NaN` when no digit follows. -/
def jsParseInt10 (s : String) : JSVal :=
  match s.toList.dropWhile Char.isWhitespace with
  | [] => JSVal.nan
  | c :: r =>
    if c = '+' then parseIntDigits 1 r
    else if c = '-' then parseIntDigits (-1) r
    else parseIntDigits 1 (c :: r)

example : isPortValid (JSVal.num 3000) = true := by decide
example : isPortValid (JSVal.num 0) = false := by decide
example : isPortValid (JSVal.num 65536) = false := by decide
example : isPortValid (JSVal.str "3000") = true := by decide
example : isPortValid (JSVal.num (6001/2)) = true := by
  simp [isPortValid, jsGE, jsLE, toNumber]
  norm_num
example : isPortValid JSVal.nan = false := by decide
example : jsParseInt10 "3000" = JSVal.num 3000 := by decide
example : jsParseInt10 "abc" = JSVal.nan := by decide
example : jsParseInt10 " -42x" = JSVal.num (-42) := by decide
example : jsParseInt10 "" = JSVal.nan := by decide
example : jsTrimLower "  No " = "no" := by decide

/-! ## Configuration record and JSON serialization -/

/-- The configuration record parsed from `config.json`: an ordered list
of fields (JS object property order).  Keys are unique in any record
produced by `JSON.parse`. -/
abbrev ConfigRec : Type := List (String × JSVal)

/-- JS property read `config.port`: value of the first field with the
given key, `undefined` when absent. -/
def getField (cfg : ConfigRec) (k : String) : JSVal :=
  match cfg.lookup k with
  | some v => v
  | none => JSVal.undef

/-- JS property write `config.port = v`: replace the value of the
existing field in place (keeping its position), or append the field when
absent. -/
def setField (cfg : ConfigRec) (k : String) (v : JSVal) : ConfigRec :=
  match cfg with
  | [] => [(k, v)]
  | (k0, v0) :: rest =>
    if k0 = k then (k, v) :: rest
    else (k0, v0) :: setField rest k v

/-- Minimal JSON string escaping (quote, backslash, newline, tab, CR;
the only characters needing escapes among the values this program
writes). -/
def jsonEscape (s : String) : String :=
  String.mk (s.data.foldr (fun c acc =>
    if c = '"' then '\\' :: '"' :: acc
    else if c = '\\' then '\\' :: '\\' :: acc
    else if c = '\n' then '\\' :: 'n' :: acc
    else if c = '\t' then '\\' :: 't' :: acc
    else if c = '\r' then '\\' :: 'r' :: acc
    else c :: acc) [])

/-- JSON rendering of a number.  Integral values render exactly as JS
does; a non-integral rational is rendered as num/den (an approximation of
JS float formatting — the script itself only ever writes integers). -/
def jsonNumRepr (q : ℚ) : String :=
  if q.den = 1 then toString q.num
  else toString q.num ++ "/" ++ toString q.den

/-- JSON rendering of one value, `none` when `JSON.stringify` would skip
the property (`undefined`).  `JSON.stringify` renders `NaN` as `null`. -/
def jsonValRepr : JSVal → Option String
  | JSVal.num q => some (jsonNumRepr q)
  | JSVal.nan => some "null"
  | JSVal.str s => some ("\"" ++ jsonEscape s ++ "\"")
  | JSVal.jbool b => some (if b then "true" else "false")
  | JSVal.null => some "null"
  | JSVal.undef => none

/-- `JSON.stringify(config, null, 2)` on a flat record: 2-space-indented
pretty printing (part_000 line 158). -/
def stringifyPretty (cfg : ConfigRec) : String :=
  let entries := cfg.filterMap (fun p =>
    (jsonValRepr p.2).map (fun r => "  \"" ++ jsonEscape p.1 ++ "\": " ++ r))
  match entries with
  | [] => "\x7b\x7d"
  | _ => "\x7b\n" ++ String.intercalate ",\n" entries ++ "\n\x7d"

/-- Display form of a value inside a template string (backtick
interpolation). -/
def jsDisplay : JSVal → String
  | JSVal.num q => jsonNumRepr q
  | JSVal.nan => "NaN"
  | JSVal.str s => s
  | JSVal.jbool b => if b then "true" else "false"
  | JSVal.null => "null"
  | JSVal.undef => "undefined"

example : stringifyPretty [("port", JSVal.num 3000), ("otherField", JSVal.str "x")]
    = "\x7b\n  \"port\": 3000,\n  \"otherField\": \"x\"\n\x7d" := by decide

/-! ## Port probe (`isPortInUse`, part_000 lines 113-122)

The TCP stack is modelled by the set of currently bound ports; the probe
is the sequence of socket events the handler code performs.  The crucial
ordering — `resolve(false)` runs inside the `server.close` callback — is
reflected both in the returned state (the probe's socket is already
released when `false` is produced) and in the event trace. -/

/-- Ports currently bound on the host (by any process). -/
structure NetState where
  bound : List Nat
deriving DecidableEq, Repr

/-- Events of one probe run. -/
inductive ProbeEvent where
  | listen (p : Nat)
  | errorEv
  | listening
  | closeEv (p : Nat)
  | resolveEv (b : Bool)
deriving DecidableEq, Repr

/-- `isPortInUse`: create a server, `listen(port)`; on `error` resolve
`true`; on `listening`, `server.close(() => resolve(false))` — the
socket is released strictly before `false` is resolved.  Returns the
final net state, the resolved value, and the event trace. -/
def isPortInUse (p : Nat) (s : NetState) : NetState × Bool × List ProbeEvent :=
  if p ∈ s.bound then
    (s, true, [ProbeEvent.listen p, ProbeEvent.errorEv, ProbeEvent.resolveEv true])
  else
    let afterBind : NetState := ⟨p :: s.bound⟩
    let afterClose : NetState := ⟨afterBind.bound.erase p⟩
    (afterClose, false,
      [ProbeEvent.listen p, ProbeEvent.listening, ProbeEvent.closeEv p,
       ProbeEvent.resolveEv false])

example : (isPortInUse 3000 ⟨[80]⟩).2.1 = false := by decide
example : (isPortInUse 80 ⟨[80]⟩).2.1 = true := by decide
example : (isPortInUse 3000 ⟨[80]⟩).1 = ⟨[80]⟩ := by decide

/-! ## Port remediation stage (`checkAndSetPort`, part_000 lines 127-165) -/

/-- Environment of one `checkAndSetPort` run: the outcome of
`JSON.parse(fs.readFileSync("./config.json"))`, the availability oracle
consulted by each `isPortInUse` call (by probed value), and the stream of
raw operator answers to `Enter a new port: `. -/
structure PortEnv where
  load : Except String ConfigRec
  inUse : JSVal → Bool
  answers : List String

/-- Terminal state of the port stage.  `outOfInput` is a model artifact:
the source loop would still be waiting for operator input. -/
inductive PortState where
  | loadFailed
  | unchanged
  | updated
  | outOfInput
deriving DecidableEq, Repr

/-- Observable outcome of the port stage: terminal state, the in-memory
record at the end, the bytes written to `config.json` (if any write
happened), the questions asked, and the console lines printed. -/
structure PortResult where
  state : PortState
  cfg : Option ConfigRec
  written : Option String
  prompts : List String
  logs : List String
deriving DecidableEq, Repr

def failedReadMsg (msg : String) : String :=
  "[bootupchecks.js] Failed to read config.json: " ++ msg

def invalidOrInUseMsg (port : JSVal) : String :=
  "\nThe port \"" ++ jsDisplay port ++ "\" is invalid or in use."

def portQuestion : String :=
  "Enter a new port: "

def invalidPortMsg : String :=
  "❌ [bootupchecks.js] Invalid port. Please enter a number between 1 and 65535."

def portInUseMsg : String :=
  "❌ [bootupchecks.js] Port is already in use. Try a different one."

def updatedMsg (port : JSVal) : String :=
  "✅ [bootupchecks.js] Port has been updated to " ++ jsDisplay port
    ++ " and saved in config.json."

def validMsg (port : JSVal) : String :=
  "✅ [bootupchecks.js] The current port (" ++ jsDisplay port
    ++ ") is valid and available."

/-- The `while (true)` prompt loop of `checkAndSetPort` (lines 143-161),
recursing on the remaining operator answers.  Each iteration asks the
question, parses the (trimmed, lowercased) answer with `parseInt(_, 10)`,
rejects it when `isPortValid` fails or the probe reports it in use, and
otherwise sets `config.port`, writes the pretty-printed record and
terminates. -/
def promptLoop (inUse : JSVal → Bool) (cfg : ConfigRec)
    (prompts logs : List String) : List String → PortResult
  | [] =>
    { state := PortState.outOfInput, cfg := some cfg, written := none,
      prompts := prompts, logs := logs }
  | a :: rest =>
    let newPort := jsParseInt10 (jsTrimLower a)
    if isPortValid newPort = false then
      promptLoop inUse cfg (prompts ++ [portQuestion]) (logs ++ [invalidPortMsg]) rest
    else if inUse newPort then
      promptLoop inUse cfg (prompts ++ [portQuestion]) (logs ++ [portInUseMsg]) rest
    else
      let cfg2 := setField cfg "port" newPort
      { state := PortState.updated, cfg := some cfg2,
        written := some (stringifyPretty cfg2),
        prompts := prompts ++ [portQuestion],
        logs := logs ++ [updatedMsg newPort] }

/-- `checkAndSetPort` (lines 127-165): load the record (early return on
failure), read `config.port`, and either confirm it
(`!port || !isPortValid(port) || await isPortInUse(port)` all false) or
enter the prompt loop. -/
def checkAndSetPort (env : PortEnv) : PortResult :=
  match env.load with
  | Except.error msg =>
    { state := PortState.loadFailed, cfg := none, written := none,
      prompts := [], logs := [failedReadMsg msg] }
  | Except.ok config =>
    let port := getField config "port"
    if jsFalsy port || !isPortValid port || env.inUse port then
      promptLoop env.inUse config [] [invalidOrInUseMsg port] env.answers
    else
      { state := PortState.unchanged, cfg := some config, written := none,
        prompts := [], logs := [validMsg port] }

example :
    (checkAndSetPort
      { load := Except.ok [("port", JSVal.num 3000)],
        inUse := fun _ => false, answers := [] }).state
    = PortState.unchanged := by decide

example :
    (checkAndSetPort
      { load := Except.ok [("port", JSVal.num 80000), ("otherField", JSVal.str "x")],
        inUse := fun _ => false, answers := ["99999", "3000"] })
    = { state := PortState.updated,
        cfg := some [("port", JSVal.num 3000), ("otherField", JSVal.str "x")],
        written := some "\x7b\n  \"port\": 3000,\n  \"otherField\": \"x\"\n\x7d",
        prompts := [portQuestion, portQuestion],
        logs := [invalidOrInUseMsg (JSVal.num 80000), invalidPortMsg,
          updatedMsg (JSVal.num 3000)] } := by decide

/-! ## Dependency remediation stage (part_000 lines 33-95)

`require.resolve` and `execSync` are environment capabilities; the
operator's raw answers form a stream indexed by prompt number (`askUser`
suspends until one arrives, so the stage consumes exactly one answer per
prompt). -/

/-- Environment of the dependency stage: which names resolve
(`isDependencyInstalled`), the outcome of
`execSync("npm install " + dep)` per dependency, and the raw operator
answers in prompt order. -/
structure DepEnv where
  installed : String → Bool
  execRes : String → Except String Unit
  answers : Nat → String

/-- Observable effects of one `installDependency` call: its return value
(`null` or the dependency name given back), the question asked, the
shell commands invoked, and the console lines printed. -/
structure InstallStep where
  result : Option String
  question : String
  installs : List String
  logs : List String
deriving DecidableEq, Repr

def depQuestion (dep : String) : String :=
  "Do you want to install \"" ++ dep ++ "\"? (yes/no): "

def installingMsg (dep : String) : String :=
  "Installing \"" ++ dep ++ "\"..."

def installedOkMsg (dep : String) : String :=
  "\"" ++ dep ++ "\" installed successfully!"

def failedInstallMsg (dep : String) (e : String) : String :=
  "Failed to install \"" ++ dep ++ "\". Error: " ++ e

def npmInstallCmd (dep : String) : String :=
  "npm install " ++ dep

/-- `installDependency` (lines 55-70).  The answer arrives through
`askUser`, hence trimmed and lowercased.  On `"yes"` the install command
runs inside `try`/`catch`: a failure is logged and swallowed, and the
function still returns `null`.  Any other answer returns the name. -/
def installDependency (env : DepEnv) (dep : String) (rawAnswer : String) : InstallStep :=
  let answer := jsTrimLower rawAnswer
  if answer = "yes" then
    match env.execRes dep with
    | Except.ok _ =>
      { result := none, question := depQuestion dep,
        installs := [npmInstallCmd dep],
        logs := [installingMsg dep, installedOkMsg dep] }
    | Except.error e =>
      { result := none, question := depQuestion dep,
        installs := [npmInstallCmd dep],
        logs := [installingMsg dep, failedInstallMsg dep e] }
  else
    { result := some dep, question := depQuestion dep, installs := [], logs := [] }

/-- Aggregate result of the dependency stage. -/
structure DepResult where
  prompts : List String
  installs : List String
  declined : List String
  logs : List String
  nextAnswer : Nat
deriving DecidableEq, Repr

/-- JS truthiness of `installDependency`'s return value, as tested by
`if (declined)` (line 82): `null` and the empty string are falsy. -/
def jsTruthyOptStr : Option String → Bool
  | none => false
  | some s => !decide (s = "")

/-- The `for (const dep of missingDependencies)` loop (lines 80-85),
threading the index of the next operator answer.  A returned name is
pushed onto `declinedDependencies` only when truthy. -/
def depLoop (env : DepEnv) : List String → Nat → DepResult
  | [], i =>
    { prompts := [], installs := [], declined := [], logs := [], nextAnswer := i }
  | dep :: rest, i =>
    let step := installDependency env dep (env.answers i)
    let r := depLoop env rest (i + 1)
    { prompts := step.question :: r.prompts,
      installs := step.installs ++ r.installs,
      declined := (match step.result with
        | some s => if jsTruthyOptStr (some s) then [s] else []
        | none => []) ++ r.declined,
      logs := step.logs ++ r.logs,
      nextAnswer := r.nextAnswer }

def summaryHeaderMsg : String :=
  "\nThe following dependencies were not installed:"

def summaryManualMsg : String :=
  "\nYou can install them manually with the following commands:"

def allInstalledMsg : String :=
  "\n✅ [bootupchecks.js] All dependencies are installed!"

/-- Final summary printing (lines 87-94). -/
def depSummary (declined : List String) : List String :=
  if declined.length > 0 then
    [summaryHeaderMsg, String.intercalate "\n" declined, summaryManualMsg]
      ++ declined.map npmInstallCmd
  else
    [allInstalledMsg]

/-- `checkAndInstallDependencies` (lines 76-95): filter to the missing
names (preserving order), run the install loop, then print the summary. -/
def checkAndInstallDependencies (env : DepEnv) (dependencies : List String) : DepResult :=
  let missingDependencies := dependencies.filter (fun dep => !env.installed dep)
  let r := depLoop env missingDependencies 0
  { r with logs := r.logs ++ depSummary r.declined }

/-- The missing-dependency sublist, as computed at line 77. -/
def missingOf (env : DepEnv) (dependencies : List String) : List String :=
  dependencies.filter (fun dep => !env.installed dep)

/-! ## Orchestrator (part_000 lines 7-11 and 171-175)

`rl` is created once at module load; the IIFE awaits the dependency
stage, then the port stage, then calls `closeReadline()`.  The session
trace records interactive-session lifecycle events in program order. -/

/-- `const requiredDeps = ["express"];` (line 34). -/
def requiredDeps : List String := ["express"]

/-- Lifecycle events of the readline interface. -/
inductive SessionEvent where
  | created
  | questionAsked (q : String)
  | closed
deriving DecidableEq, Repr

def isCreatedEv : SessionEvent → Bool
  | SessionEvent.created => true
  | _ => false

def isClosedEv : SessionEvent → Bool
  | SessionEvent.closed => true
  | _ => false

/-- Environment of a whole process run. -/
structure ProcEnv where
  dep : DepEnv
  port : PortEnv

/-- One process run of the merged script: module load creates the single
readline interface, the IIFE runs the two stages in order and then
closes it.  Returns both stage results and the session-event trace. -/
def runProcess (env : ProcEnv) : DepResult × PortResult × List SessionEvent :=
  let d := checkAndInstallDependencies env.dep requiredDeps
  let p := checkAndSetPort env.port
  (d, p,
    SessionEvent.created
      :: (d.prompts.map SessionEvent.questionAsked
          ++ p.prompts.map SessionEvent.questionAsked
          ++ [SessionEvent.closed]))

example :
    (checkAndInstallDependencies
      { installed := fun d => d = "a", execRes := fun _ => Except.ok (),
        answers := fun _ => "no" } ["a", "b"]).declined = ["b"] := by decide

example :
    (checkAndInstallDependencies
      { installed := fun d => d = "a", execRes := fun _ => Except.ok (),
        answers := fun _ => "no" } ["a", "b"]).installs = [] := by decide

example :
    (checkAndInstallDependencies
      { installed := fun _ => false, execRes := fun _ => Except.ok (),
        answers := fun _ => "no" } [""]).declined = [] := by decide

/-! ## Helper lemmas -/

theorem lookup_setField_self (cfg : ConfigRec) (k : String) (v : JSVal) :
    (setField cfg k v).lookup k = some v := by
  induction cfg with
  | nil => simp [setField, List.lookup]
  | cons hd tl ih =>
    obtain ⟨k0, v0⟩ := hd
    by_cases h : k0 = k
    · subst h
      simp [setField, List.lookup]
    · have hb : (k == k0) = false := beq_eq_false_iff_ne.mpr (Ne.symm h)
      simp [setField, h, List.lookup, ih, hb]

theorem lookup_setField_ne (cfg : ConfigRec) (k : String) (v : JSVal)
    (k2 : String) (h2 : k2 ≠ k) :
    (setField cfg k v).lookup k2 = cfg.lookup k2 := by
  have hb2 : (k2 == k) = false := beq_eq_false_iff_ne.mpr h2
  induction cfg with
  | nil => simp [setField, List.lookup, hb2]
  | cons hd tl ih =>
    obtain ⟨k0, v0⟩ := hd
    by_cases h : k0 = k
    · subst h
      simp [setField, List.lookup, hb2]
    · simp [setField, h, List.lookup, ih]

theorem getField_setField_self (cfg : ConfigRec) (k : String) (v : JSVal) :
    getField (setField cfg k v) k = v := by
  simp [getField, lookup_setField_self]

theorem isPortValid_not_falsy (v : JSVal) (h : isPortValid v = true) :
    jsFalsy v = false := by
  cases v with
  | num q =>
    have h1 : jsGE (JSVal.num q) 1 = true := by
      have := h
      simp [isPortValid, Bool.and_eq_true] at this
      exact this.1
    simp [jsGE, toNumber] at h1
    simp [jsFalsy]
    intro hq
    rw [hq] at h1
    norm_num at h1
  | nan => exact absurd h (by decide)
  | str s =>
    by_cases hs : s = ""
    · subst hs
      exact absurd h (by decide)
    · simp [jsFalsy, hs]
  | jbool b =>
    cases b
    · exact absurd h (by decide)
    · decide
  | null => exact absurd h (by decide)
  | undef => exact absurd h (by decide)

theorem parseIntDigits_shape (sign : Int) (l : List Char) :
    parseIntDigits sign l = JSVal.nan ∨
      ∃ m : ℤ, parseIntDigits sign l = JSVal.num (m : ℚ) := by
  simp only [parseIntDigits]
  by_cases h : (l.takeWhile Char.isDigit).isEmpty
  · left
    simp [h]
  · right
    exact ⟨sign * (digitsVal (l.takeWhile Char.isDigit) : Int), by simp [h]⟩

theorem jsParseInt10_shape (s : String) :
    jsParseInt10 s = JSVal.nan ∨ ∃ m : ℤ, jsParseInt10 s = JSVal.num (m : ℚ) := by
  simp only [jsParseInt10]
  match s.toList.dropWhile Char.isWhitespace with
  | [] => left; rfl
  | c :: r =>
    by_cases hp : c = '+'
    · simp only [hp, if_pos rfl]
      exact parseIntDigits_shape 1 r
    · by_cases hm : c = '-'
      · simp only [hp, hm, if_neg, if_pos rfl, reduceIte]
        exact parseIntDigits_shape (-1) r
      · simp only [hp, hm, if_neg, reduceIte]
        exact parseIntDigits_shape 1 (c :: r)

theorem promptLoop_state (u : JSVal → Bool) (cfg : ConfigRec) :
    ∀ (ans prompts logs : List String),
    (promptLoop u cfg prompts logs ans).state = PortState.updated ∨
    (promptLoop u cfg prompts logs ans).state = PortState.outOfInput := by
  intro ans
  induction ans with
  | nil =>
    intro prompts logs
    right
    rfl
  | cons a rest ih =>
    intro prompts logs
    by_cases h1 : isPortValid (jsParseInt10 (jsTrimLower a)) = false
    · simpa [promptLoop, h1] using ih (prompts ++ [portQuestion]) (logs ++ [invalidPortMsg])
    · by_cases h2 : u (jsParseInt10 (jsTrimLower a)) = true
      · simpa [promptLoop, h1, h2] using ih (prompts ++ [portQuestion]) (logs ++ [portInUseMsg])
      · left
        simp [promptLoop, h1, h2]

theorem promptLoop_updated (u : JSVal → Bool) (cfg : ConfigRec) :
    ∀ (ans prompts logs : List String),
    (promptLoop u cfg prompts logs ans).state = PortState.updated →
    ∃ m : ℤ,
      isPortValid (JSVal.num (m : ℚ)) = true ∧
      u (JSVal.num (m : ℚ)) = false ∧
      (promptLoop u cfg prompts logs ans).cfg
        = some (setField cfg "port" (JSVal.num (m : ℚ))) ∧
      (promptLoop u cfg prompts logs ans).written
        = some (stringifyPretty (setField cfg "port" (JSVal.num (m : ℚ)))) := by
  intro ans
  induction ans with
  | nil =>
    intro prompts logs h
    simp [promptLoop] at h
  | cons a rest ih =>
    intro prompts logs h
    by_cases h1 : isPortValid (jsParseInt10 (jsTrimLower a)) = false
    · have heq : promptLoop u cfg prompts logs (a :: rest)
          = promptLoop u cfg (prompts ++ [portQuestion]) (logs ++ [invalidPortMsg]) rest := by
        simp [promptLoop, h1]
      rw [heq] at h ⊢
      exact ih _ _ h
    · by_cases h2 : u (jsParseInt10 (jsTrimLower a)) = true
      · have heq : promptLoop u cfg prompts logs (a :: rest)
            = promptLoop u cfg (prompts ++ [portQuestion]) (logs ++ [portInUseMsg]) rest := by
          simp [promptLoop, h1, h2]
        rw [heq] at h ⊢
        exact ih _ _ h
      · have h1t : isPortValid (jsParseInt10 (jsTrimLower a)) = true := by
          cases hx : isPortValid (jsParseInt10 (jsTrimLower a))
          · exact absurd hx h1
          · rfl
        have h2f : u (jsParseInt10 (jsTrimLower a)) = false := by
          cases hx : u (jsParseInt10 (jsTrimLower a))
          · rfl
          · exact absurd hx h2
        rcases jsParseInt10_shape (jsTrimLower a) with hn | ⟨m, hm⟩
        · rw [hn] at h1t
          exact absurd h1t (by decide)
        · have h1t2 : isPortValid (JSVal.num (m : ℚ)) = true := by
            rw [← hm]
            exact h1t
          have h2f2 : u (JSVal.num (m : ℚ)) = false := by
            rw [← hm]
            exact h2f
          refine ⟨m, h1t2, h2f2, ?_, ?_⟩
          · simp [promptLoop, hm, h1t2, h2f2]
          · simp [promptLoop, hm, h1t2, h2f2]

/-! ## Claim C1 -/

/-- The Port Validator as the spec words it (§4.4): the value is an
integer in `[1, 65535]`.  Stated over runtime values so it can be
compared against the source's `isPortValid`. -/
def specIsValid (v : JSVal) : Bool :=
  match v with
  | JSVal.num q => decide (q.den = 1) && decide (1 ≤ q) && decide (q ≤ 65535)
  | _ => false

/-- The JS number 3000.5, given in normal form so that kernel evaluation
needs no gcd computation. -/
def halfPort3000 : ℚ := ⟨6001, 2, by norm_num, by norm_num⟩

/-- C1 counterexample: the source validator has no integrality test.
The string "3000" and the non-integer number 3000.5 both pass
`isPortValid` by numeric coercion, though neither is an integer in
`[1, 65535]`. -/
theorem c1_counterexample :
    isPortValid (JSVal.str "3000") = true ∧
    specIsValid (JSVal.str "3000") = false ∧
    isPortValid (JSVal.num halfPort3000) = true ∧
    specIsValid (JSVal.num halfPort3000) = false := by
  refine ⟨by decide, by decide, by decide, by decide⟩

/-- C1 (amended): `isPortValid(p)` returns true iff the JS numeric
coercion of `p` is a number `q` with `1 ≤ q ≤ 65535`; there is no
integrality check.  The integer boundary cases behave as the claim
lists, while in-range non-integers and numeric strings also pass. -/
theorem c1_amended :
    (∀ v, isPortValid v = true ↔
      ∃ q : ℚ, toNumber v = some q ∧ 1 ≤ q ∧ q ≤ 65535) ∧
    isPortValid (JSVal.num 0) = false ∧
    isPortValid (JSVal.num 1) = true ∧
    isPortValid (JSVal.num 65535) = true ∧
    isPortValid (JSVal.num 65536) = false ∧
    isPortValid (JSVal.num (-1)) = false ∧
    isPortValid JSVal.nan = false ∧
    isPortValid JSVal.undef = false ∧
    isPortValid JSVal.null = false ∧
    isPortValid (JSVal.str "abc") = false ∧
    isPortValid (JSVal.num halfPort3000) = true ∧
    isPortValid (JSVal.str "3000") = true := by
  refine ⟨?_, by decide, by decide, by decide, by decide, by decide, by decide,
    by decide, by decide, by decide, by decide, by decide⟩
  intro v
  cases h : toNumber v <;> simp [isPortValid, jsGE, jsLE, h, and_assoc]

/-! ## Claim C4 -/

/-- C4: on a free port the probe resolves false only after its listening
socket has been closed (the close event precedes the resolution in the
trace, and the returned net state no longer holds the port); hence two
immediately successive probes of the same free port both resolve false. -/
theorem c4_probe_releases_socket (p : Nat) (s : NetState) (hfree : p ∉ s.bound) :
    (isPortInUse p s).2.1 = false ∧
    (isPortInUse p s).1 = s ∧
    (isPortInUse p s).2.2
      = [ProbeEvent.listen p, ProbeEvent.listening, ProbeEvent.closeEv p,
         ProbeEvent.resolveEv false] ∧
    (isPortInUse p s).2.2.get? 2 = some (ProbeEvent.closeEv p) ∧
    (isPortInUse p s).2.2.get? 3 = some (ProbeEvent.resolveEv false) ∧
    (isPortInUse p (isPortInUse p s).1).2.1 = false := by
  obtain ⟨b⟩ := s
  have hfree2 : p ∉ b := hfree
  have h1 : isPortInUse p ⟨b⟩
      = (⟨b⟩, false, [ProbeEvent.listen p, ProbeEvent.listening,
          ProbeEvent.closeEv p, ProbeEvent.resolveEv false]) := by
    simp [isPortInUse, hfree2]
  simp [h1]

/-- C4 witness: probing port 3000 on a host where only port 80 is bound. -/
theorem c4_probe_witness :
    (3000 ∉ (⟨[80]⟩ : NetState).bound) ∧
    ((isPortInUse 3000 ⟨[80]⟩).2.1 = false ∧
     (isPortInUse 3000 ⟨[80]⟩).1 = (⟨[80]⟩ : NetState) ∧
     (isPortInUse 3000 ⟨[80]⟩).2.2
       = [ProbeEvent.listen 3000, ProbeEvent.listening, ProbeEvent.closeEv 3000,
          ProbeEvent.resolveEv false] ∧
     (isPortInUse 3000 ⟨[80]⟩).2.2.get? 2 = some (ProbeEvent.closeEv 3000) ∧
     (isPortInUse 3000 ⟨[80]⟩).2.2.get? 3 = some (ProbeEvent.resolveEv false) ∧
     (isPortInUse 3000 (isPortInUse 3000 ⟨[80]⟩).1).2.1 = false) :=
  ⟨by decide, c4_probe_releases_socket 3000 ⟨[80]⟩ (by decide)⟩

/-! ## Claims C2, C3, C10 -/

/-- C2: whenever the port stage ends in UNCHANGED or UPDATED, the port
value stored in the configuration record at the end of the run passes
`isPortValid` and was reported free by the availability oracle at its
probe. -/
theorem c2_final_port_valid_and_free (env : PortEnv)
    (h : (checkAndSetPort env).state = PortState.unchanged ∨
         (checkAndSetPort env).state = PortState.updated) :
    ∃ cfg2 : ConfigRec,
      (checkAndSetPort env).cfg = some cfg2 ∧
      isPortValid (getField cfg2 "port") = true ∧
      env.inUse (getField cfg2 "port") = false := by
  match hl : env.load with
  | Except.error msg =>
    rw [show checkAndSetPort env
        = { state := PortState.loadFailed, cfg := none, written := none,
            prompts := [], logs := [failedReadMsg msg] } from by
      simp [checkAndSetPort, hl]] at h
    simp at h
  | Except.ok config =>
    by_cases hc : (jsFalsy (getField config "port")
        || !isPortValid (getField config "port")
        || env.inUse (getField config "port")) = true
    · have heq : checkAndSetPort env
          = promptLoop env.inUse config [] [invalidOrInUseMsg (getField config "port")]
              env.answers := by
        simp [checkAndSetPort, hl, hc]
      rw [heq] at h ⊢
      rcases h with h | h
      · rcases promptLoop_state env.inUse config env.answers []
            [invalidOrInUseMsg (getField config "port")] with hs | hs <;>
          simp [hs] at h
      · obtain ⟨m, hv, hu, hcfg, _⟩ :=
          promptLoop_updated env.inUse config env.answers []
            [invalidOrInUseMsg (getField config "port")] h
        refine ⟨setField config "port" (JSVal.num (m : ℚ)), hcfg, ?_, ?_⟩
        · rw [getField_setField_self]
          exact hv
        · rw [getField_setField_self]
          exact hu
    · have heq : checkAndSetPort env
          = { state := PortState.unchanged, cfg := some config, written := none,
              prompts := [], logs := [validMsg (getField config "port")] } := by
        simp only [checkAndSetPort, hl]
        rw [if_neg hc]
      rw [heq]
      simp only [Bool.or_eq_true, Bool.not_eq_true', not_or] at hc
      have hv : isPortValid (getField config "port") = true := by
        cases hx : isPortValid (getField config "port")
        · exact absurd hx hc.1.2
        · rfl
      have hu : env.inUse (getField config "port") = false := by
        cases hx : env.inUse (getField config "port")
        · rfl
        · exact absurd hx hc.2
      exact ⟨config, rfl, hv, hu⟩

/-- C2 witness: a run whose configured port 3000 is valid and free. -/
theorem c2_witness :
    ((checkAndSetPort
        { load := Except.ok [("port", JSVal.num 3000)],
          inUse := fun _ => false, answers := [] }).state = PortState.unchanged ∨
     (checkAndSetPort
        { load := Except.ok [("port", JSVal.num 3000)],
          inUse := fun _ => false, answers := [] }).state = PortState.updated) ∧
    ∃ cfg2 : ConfigRec,
      (checkAndSetPort
          { load := Except.ok [("port", JSVal.num 3000)],
            inUse := fun _ => false, answers := [] }).cfg = some cfg2 ∧
      isPortValid (getField cfg2 "port") = true ∧
      (fun (_ : JSVal) => false) (getField cfg2 "port") = false :=
  ⟨Or.inl (by decide),
   c2_final_port_valid_and_free
     { load := Except.ok [("port", JSVal.num 3000)],
       inUse := fun _ => false, answers := [] } (Or.inl (by decide))⟩

/-- C3: with a truthy, valid, free configured port the stage terminates
in UNCHANGED — nothing is written (the stored record stays byte-identical)
and no question is asked; and whenever the stage ends in UPDATED, the
rewritten record agrees with the loaded one on every field other than
`port` and the written bytes are exactly its 2-space pretty printing. -/
theorem c3_frame_effect (env : PortEnv) (cfg : ConfigRec)
    (hload : env.load = Except.ok cfg) :
    (isPortValid (getField cfg "port") = true →
      env.inUse (getField cfg "port") = false →
      checkAndSetPort env
        = { state := PortState.unchanged, cfg := some cfg, written := none,
            prompts := [], logs := [validMsg (getField cfg "port")] }) ∧
    (∀ cfg2 : ConfigRec,
      (checkAndSetPort env).state = PortState.updated →
      (checkAndSetPort env).cfg = some cfg2 →
      (checkAndSetPort env).written = some (stringifyPretty cfg2) ∧
      ∀ k : String, k ≠ "port" → cfg2.lookup k = cfg.lookup k) := by
  constructor
  · intro hv hu
    have hf : jsFalsy (getField cfg "port") = false := isPortValid_not_falsy _ hv
    simp [checkAndSetPort, hload, hf, hv, hu]
  · intro cfg2 hst hcfg
    by_cases hc : (jsFalsy (getField cfg "port")
        || !isPortValid (getField cfg "port")
        || env.inUse (getField cfg "port")) = true
    · have heq : checkAndSetPort env
          = promptLoop env.inUse cfg [] [invalidOrInUseMsg (getField cfg "port")]
              env.answers := by
        simp [checkAndSetPort, hload, hc]
      rw [heq] at hst hcfg ⊢
      obtain ⟨m, _, _, hcfg2, hw⟩ :=
        promptLoop_updated env.inUse cfg env.answers []
          [invalidOrInUseMsg (getField cfg "port")] hst
      rw [hcfg] at hcfg2
      obtain rfl : cfg2 = setField cfg "port" (JSVal.num (m : ℚ)) :=
        Option.some.injEq _ _ ▸ hcfg2.symm ▸ rfl
      refine ⟨hw, ?_⟩
      intro k hk
      exact lookup_setField_ne cfg "port" (JSVal.num (m : ℚ)) k hk
    · have heq : checkAndSetPort env
          = { state := PortState.unchanged, cfg := some cfg, written := none,
              prompts := [], logs := [validMsg (getField cfg "port")] } := by
        simp only [checkAndSetPort, hload]
        rw [if_neg hc]
      rw [heq] at hst
      simp at hst

/-- C3 witness: a valid free configured port leaves the record untouched
and asks nothing, and on the update path (port 80000 out of range,
operator enters 3000) the write is the pretty printing of the updated
record with the other field preserved. -/
theorem c3_witness :
    (checkAndSetPort
        { load := Except.ok [("port", JSVal.num 3000), ("otherField", JSVal.str "x")],
          inUse := fun _ => false, answers := [] }
      = { state := PortState.unchanged,
          cfg := some [("port", JSVal.num 3000), ("otherField", JSVal.str "x")],
          written := none, prompts := [],
          logs := [validMsg (getField
            [("port", JSVal.num 3000), ("otherField", JSVal.str "x")] "port")] }) ∧
    ((checkAndSetPort
        { load := Except.ok [("port", JSVal.num 80000), ("otherField", JSVal.str "x")],
          inUse := fun _ => false, answers := ["3000"] }).written
      = some (stringifyPretty [("port", JSVal.num 3000), ("otherField", JSVal.str "x")]) ∧
     ∀ k : String, k ≠ "port" →
       ([("port", JSVal.num 3000), ("otherField", JSVal.str "x")] : ConfigRec).lookup k
         = ([("port", JSVal.num 80000), ("otherField", JSVal.str "x")] : ConfigRec).lookup k) :=
  ⟨(c3_frame_effect
      { load := Except.ok [("port", JSVal.num 3000), ("otherField", JSVal.str "x")],
        inUse := fun _ => false, answers := [] }
      [("port", JSVal.num 3000), ("otherField", JSVal.str "x")] rfl).1
    (by decide) rfl,
   (c3_frame_effect
      { load := Except.ok [("port", JSVal.num 80000), ("otherField", JSVal.str "x")],
        inUse := fun _ => false, answers := ["3000"] }
      [("port", JSVal.num 80000), ("otherField", JSVal.str "x")] rfl).2
    [("port", JSVal.num 3000), ("otherField", JSVal.str "x")] (by decide) (by decide)⟩

/-- C10: a configuration whose `port` field holds the digit string
"3000" is accepted by the coercive validation chain: the stage prints
the confirmation and ends UNCHANGED, with no prompt, no write, and the
stored value left as the string (not normalized to an integer). -/
theorem c10_string_port_accepted (env : PortEnv) (cfg : ConfigRec)
    (hload : env.load = Except.ok cfg)
    (hport : getField cfg "port" = JSVal.str "3000")
    (hfree : env.inUse (JSVal.str "3000") = false) :
    checkAndSetPort env
      = { state := PortState.unchanged, cfg := some cfg, written := none,
          prompts := [], logs := [validMsg (JSVal.str "3000")] } := by
  have h1 : jsFalsy (JSVal.str "3000") = false := by decide
  have h2 : isPortValid (JSVal.str "3000") = true := by decide
  simp [checkAndSetPort, hload, hport, h1, h2, hfree]

/-- C10 witness: the concrete record with a string port "3000". -/
theorem c10_witness :
    getField [("port", JSVal.str "3000"), ("otherField", JSVal.str "x")] "port"
      = JSVal.str "3000" ∧
    checkAndSetPort
        { load := Except.ok [("port", JSVal.str "3000"), ("otherField", JSVal.str "x")],
          inUse := fun _ => false, answers := [] }
      = { state := PortState.unchanged,
          cfg := some [("port", JSVal.str "3000"), ("otherField", JSVal.str "x")],
          written := none, prompts := [], logs := [validMsg (JSVal.str "3000")] } :=
  ⟨by decide,
   c10_string_port_accepted
     { load := Except.ok [("port", JSVal.str "3000"), ("otherField", JSVal.str "x")],
       inUse := fun _ => false, answers := [] }
     [("port", JSVal.str "3000"), ("otherField", JSVal.str "x")] rfl (by decide) rfl⟩

/-! ## Dependency-stage characterizations and claims C5, C6 -/

/-- What the loop actually pushes onto `declinedDependencies`: a missing
name whose (trimmed, lowercased) answer is not "yes" — and, because
`if (declined)` tests string truthiness, only when the name is nonempty. -/
def declSpec (answers : Nat → String) : List String → Nat → List String
  | [], _ => []
  | dep :: rest, i =>
    (if jsTrimLower (answers i) ≠ "yes" ∧ dep ≠ "" then [dep] else [])
      ++ declSpec answers rest (i + 1)

/-- The declined list as the claim words it: exactly the missing names
whose answer is not "yes", in order. -/
def declinedPerClaim (answers : Nat → String) : List String → Nat → List String
  | [], _ => []
  | dep :: rest, i =>
    (if jsTrimLower (answers i) = "yes" then [] else [dep])
      ++ declinedPerClaim answers rest (i + 1)

/-- The install commands invoked: one per missing name answered "yes". -/
def installsSpec (answers : Nat → String) : List String → Nat → List String
  | [], _ => []
  | dep :: rest, i =>
    (if jsTrimLower (answers i) = "yes" then [npmInstallCmd dep] else [])
      ++ installsSpec answers rest (i + 1)

theorem depLoop_prompts (env : DepEnv) :
    ∀ (missing : List String) (i : Nat),
    (depLoop env missing i).prompts = missing.map depQuestion
  | [], _ => rfl
  | dep :: rest, i => by
    by_cases hy : jsTrimLower (env.answers i) = "yes"
    · cases hr : env.execRes dep <;>
        simp [depLoop, installDependency, hy, hr, depLoop_prompts env rest (i + 1)]
    · simp [depLoop, installDependency, hy, depLoop_prompts env rest (i + 1)]

theorem depLoop_installs (env : DepEnv) :
    ∀ (missing : List String) (i : Nat),
    (depLoop env missing i).installs = installsSpec env.answers missing i
  | [], _ => rfl
  | dep :: rest, i => by
    by_cases hy : jsTrimLower (env.answers i) = "yes"
    · cases hr : env.execRes dep <;>
        simp [depLoop, installDependency, installsSpec, hy, hr,
          depLoop_installs env rest (i + 1)]
    · simp [depLoop, installDependency, installsSpec, hy,
        depLoop_installs env rest (i + 1)]

theorem depLoop_declined (env : DepEnv) :
    ∀ (missing : List String) (i : Nat),
    (depLoop env missing i).declined = declSpec env.answers missing i
  | [], _ => rfl
  | dep :: rest, i => by
    by_cases hy : jsTrimLower (env.answers i) = "yes"
    · cases hr : env.execRes dep <;>
        simp [depLoop, installDependency, declSpec, hy, hr,
          depLoop_declined env rest (i + 1)]
    · by_cases hd : dep = ""
      · simp [depLoop, installDependency, declSpec, jsTruthyOptStr, hy, hd,
          depLoop_declined env rest (i + 1)]
      · simp [depLoop, installDependency, declSpec, jsTruthyOptStr, hy, hd,
          depLoop_declined env rest (i + 1)]

theorem declSpec_eq_perClaim (answers : Nat → String) :
    ∀ (l : List String), (∀ n ∈ l, n ≠ "") → ∀ i : Nat,
    declSpec answers l i = declinedPerClaim answers l i
  | [], _, _ => rfl
  | dep :: rest, h, i => by
    have hd : dep ≠ "" := h dep (by simp)
    have hrest :=
      declSpec_eq_perClaim answers rest (fun n hn => h n (by simp [hn])) (i + 1)
    by_cases hy : jsTrimLower (answers i) = "yes"
    · simp [declSpec, declinedPerClaim, hy, hrest]
    · simp [declSpec, declinedPerClaim, hy, hd, hrest]

theorem declSpec_mem (answers : Nat → String) :
    ∀ (l : List String) (i : Nat) (d : String),
    d ∈ declSpec answers l i →
    ∃ j : Nat, l.get? j = some d ∧ jsTrimLower (answers (i + j)) ≠ "yes"
  | [], i, d => by simp [declSpec]
  | dep :: rest, i, d => by
    intro hmem
    simp only [declSpec] at hmem
    rw [List.mem_append] at hmem
    rcases hmem with hmem | hmem
    · by_cases hcond : jsTrimLower (answers i) ≠ "yes" ∧ dep ≠ ""
      · rw [if_pos hcond] at hmem
        simp at hmem
        subst hmem
        exact ⟨0, by simp, by simpa using hcond.1⟩
      · rw [if_neg hcond] at hmem
        simp at hmem
    · obtain ⟨j, hj1, hj2⟩ := declSpec_mem answers rest (i + 1) d hmem
      refine ⟨j + 1, by simpa using hj1, ?_⟩
      have harith : i + 1 + j = i + (j + 1) := by omega
      rw [← harith]
      exact hj2

/-- C5 counterexample: with the single missing dependency named by the
empty string and the answer "no", the loop's truthiness test
`if (declined)` drops the name — the declined list is empty although the
claim requires it to be exactly the missing non-"yes" names. -/
theorem c5_counterexample :
    (checkAndInstallDependencies
        { installed := fun _ => false, execRes := fun _ => Except.ok (),
          answers := fun _ => "no" } [""]).declined = [] ∧
    declinedPerClaim (fun _ => "no")
        (missingOf
          { installed := fun _ => false, execRes := fun _ => Except.ok (),
            answers := fun _ => "no" } [""]) 0 = [""] ∧
    jsTrimLower "no" ≠ "yes" := by
  refine ⟨by decide, by decide, by decide⟩

/-- C5 (amended): for every dependency list of nonempty names, the stage
prompts exactly for the names failing the installed check, in original
order; the declined list is exactly the missing names whose (trimmed,
lowercased) answer is not "yes"; and the install commands invoked are
exactly those for the missing names answered "yes". -/
theorem c5_amended (env : DepEnv) (names : List String)
    (hne : ∀ n ∈ names, n ≠ "") :
    (checkAndInstallDependencies env names).prompts
      = (missingOf env names).map depQuestion ∧
    (checkAndInstallDependencies env names).declined
      = declinedPerClaim env.answers (missingOf env names) 0 ∧
    (checkAndInstallDependencies env names).installs
      = installsSpec env.answers (missingOf env names) 0 := by
  have hne2 : ∀ n ∈ missingOf env names, n ≠ "" := fun n hn =>
    hne n (List.mem_of_mem_filter hn)
  refine ⟨?_, ?_, ?_⟩
  · simp [checkAndInstallDependencies, missingOf, depLoop_prompts]
  · have h1 : (checkAndInstallDependencies env names).declined
        = declSpec env.answers (missingOf env names) 0 := by
      simp only [checkAndInstallDependencies, missingOf]
      exact depLoop_declined env _ 0
    rw [h1]
    exact declSpec_eq_perClaim env.answers (missingOf env names) hne2 0
  · simp [checkAndInstallDependencies, missingOf, depLoop_installs]

/-- Environment of the C5 witness: "a" resolves, "b" does not, the
operator answers "no". -/
def envAB : DepEnv :=
  { installed := fun d => decide (d = "a"), execRes := fun _ => Except.ok (),
    answers := fun _ => "no" }

/-- C5 witness: the claim's own scenario — `["a","b"]`, "a" installed,
"b" missing, answer "no" — where the declined list is exactly `["b"]`
and no install command is invoked. -/
theorem c5_witness :
    (∀ n ∈ ["a", "b"], n ≠ ("" : String)) ∧
    (checkAndInstallDependencies envAB ["a", "b"]).prompts
      = (missingOf envAB ["a", "b"]).map depQuestion ∧
    (checkAndInstallDependencies envAB ["a", "b"]).declined
      = declinedPerClaim envAB.answers (missingOf envAB ["a", "b"]) 0 ∧
    (checkAndInstallDependencies envAB ["a", "b"]).installs
      = installsSpec envAB.answers (missingOf envAB ["a", "b"]) 0 ∧
    (checkAndInstallDependencies envAB ["a", "b"]).declined = ["b"] ∧
    (checkAndInstallDependencies envAB ["a", "b"]).installs = [] :=
  ⟨by decide,
   (c5_amended envAB ["a", "b"] (by decide)).1,
   (c5_amended envAB ["a", "b"] (by decide)).2.1,
   (c5_amended envAB ["a", "b"] (by decide)).2.2,
   by decide, by decide⟩

/-- C6: on a "yes" answer `installDependency` returns `null` (no
exception escapes — the `catch` swallows the failure), invokes the
install command exactly once, logs the failure message when the command
fails, and a "yes"-answered dependency is never on the declined list
(every declined entry stems from a non-"yes" answer). -/
theorem c6_install_failure_swallowed (env : DepEnv) (dep rawAnswer : String)
    (names : List String) (hyes : jsTrimLower rawAnswer = "yes") :
    (installDependency env dep rawAnswer).result = none ∧
    (installDependency env dep rawAnswer).installs = [npmInstallCmd dep] ∧
    (∀ e : String, env.execRes dep = Except.error e →
      (installDependency env dep rawAnswer).logs
        = [installingMsg dep, failedInstallMsg dep e]) ∧
    (∀ d : String, d ∈ (checkAndInstallDependencies env names).declined →
      ∃ j : Nat, (missingOf env names).get? j = some d ∧
        jsTrimLower (env.answers j) ≠ "yes") := by
  refine ⟨?_, ?_, ?_, ?_⟩
  · cases hr : env.execRes dep <;> simp [installDependency, hyes, hr]
  · cases hr : env.execRes dep <;> simp [installDependency, hyes, hr]
  · intro e he
    simp [installDependency, hyes, he]
  · intro d hd
    have h1 : (checkAndInstallDependencies env names).declined
        = declSpec env.answers (missingOf env names) 0 := by
      simp only [checkAndInstallDependencies, missingOf]
      exact depLoop_declined env _ 0
    rw [h1] at hd
    obtain ⟨j, hj1, hj2⟩ := declSpec_mem env.answers (missingOf env names) 0 d hd
    exact ⟨j, hj1, by simpa using hj2⟩

/-- Environment of the C6 witness: a missing dependency whose install
command fails. -/
def envYes : DepEnv :=
  { installed := fun _ => false, execRes := fun _ => Except.error "boom",
    answers := fun _ => "yes" }

/-- C6 witness: answer " YES " for "express" with a failing install —
the call returns `null`, invokes npm once, logs the failure, and nothing
is declined. -/
theorem c6_witness :
    jsTrimLower " YES " = "yes" ∧
    (installDependency envYes "express" " YES ").result = none ∧
    (installDependency envYes "express" " YES ").installs = [npmInstallCmd "express"] ∧
    (installDependency envYes "express" " YES ").logs
      = [installingMsg "express", failedInstallMsg "express" "boom"] ∧
    (checkAndInstallDependencies envYes ["express"]).declined = [] :=
  ⟨by decide,
   (c6_install_failure_swallowed envYes "express" " YES " ["express"] (by decide)).1,
   (c6_install_failure_swallowed envYes "express" " YES " ["express"] (by decide)).2.1,
   (c6_install_failure_swallowed envYes "express" " YES " ["express"]
     (by decide)).2.2.1 "boom" rfl,
   by decide⟩

/-! ## Claims C7, C8, C9 -/

theorem countP_created_comp (l : List String) :
    List.countP (isCreatedEv ∘ SessionEvent.questionAsked) l = 0 := by
  induction l with
  | nil => rfl
  | cons a rest ih => simp [List.countP_cons, isCreatedEv, Function.comp, ih]

theorem countP_closed_comp (l : List String) :
    List.countP (isClosedEv ∘ SessionEvent.questionAsked) l = 0 := by
  induction l with
  | nil => rfl
  | cons a rest ih => simp [List.countP_cons, isClosedEv, Function.comp, ih]

theorem runProcess_trace_last (env : ProcEnv) :
    (runProcess env).2.2.getLast? = some SessionEvent.closed := by
  simp only [runProcess]
  rw [show SessionEvent.created
      :: ((checkAndInstallDependencies env.dep requiredDeps).prompts.map
            SessionEvent.questionAsked
          ++ (checkAndSetPort env.port).prompts.map SessionEvent.questionAsked
          ++ [SessionEvent.closed])
    = (SessionEvent.created
        :: ((checkAndInstallDependencies env.dep requiredDeps).prompts.map
              SessionEvent.questionAsked
            ++ (checkAndSetPort env.port).prompts.map SessionEvent.questionAsked))
      ++ [SessionEvent.closed] from by simp]
  exact List.getLast?_concat _

/-- C7: when loading or parsing `config.json` fails, the port stage logs
the failure and returns early — no prompt, no write — while the
dependency stage's result is exactly what it is on its own and the
process still runs to completion (the session is closed at the end). -/
theorem c7_load_failure_isolated (env : ProcEnv) (msg : String)
    (h : env.port.load = Except.error msg) :
    (runProcess env).2.1
      = { state := PortState.loadFailed, cfg := none, written := none,
          prompts := [], logs := [failedReadMsg msg] } ∧
    (runProcess env).1 = checkAndInstallDependencies env.dep requiredDeps ∧
    (runProcess env).2.2.getLast? = some SessionEvent.closed := by
  have hp : checkAndSetPort env.port
      = { state := PortState.loadFailed, cfg := none, written := none,
          prompts := [], logs := [failedReadMsg msg] } := by
    simp [checkAndSetPort, h]
  exact ⟨by simp [runProcess, hp], by simp [runProcess], runProcess_trace_last env⟩

/-- Environment of the C7 witness: all dependencies installed, config
load fails with ENOENT. -/
def envC7 : ProcEnv :=
  { dep := { installed := fun _ => true, execRes := fun _ => Except.ok (),
             answers := fun _ => "" },
    port := { load := Except.error "ENOENT", inUse := fun _ => false,
              answers := [] } }

/-- C7 witness: concrete run with a failing config load. -/
theorem c7_witness :
    envC7.port.load = Except.error "ENOENT" ∧
    (runProcess envC7).2.1
      = { state := PortState.loadFailed, cfg := none, written := none,
          prompts := [], logs := [failedReadMsg "ENOENT"] } ∧
    (runProcess envC7).1 = checkAndInstallDependencies envC7.dep requiredDeps ∧
    (runProcess envC7).2.2.getLast? = some SessionEvent.closed :=
  ⟨rfl,
   (c7_load_failure_isolated envC7 "ENOENT" rfl).1,
   (c7_load_failure_isolated envC7 "ENOENT" rfl).2.1,
   (c7_load_failure_isolated envC7 "ENOENT" rfl).2.2⟩

/-- C8: in every process run of the merged script, exactly one readline
interface is created (at module load, regardless of how many questions
either stage asks) and exactly one close event occurs, as the very last
session event — after both stages' questions. -/
theorem c8_single_session (env : ProcEnv) :
    (runProcess env).2.2.countP isCreatedEv = 1 ∧
    (runProcess env).2.2.countP isClosedEv = 1 ∧
    (runProcess env).2.2.getLast? = some SessionEvent.closed := by
  refine ⟨?_, ?_, runProcess_trace_last env⟩
  · simp [runProcess, List.countP_cons, List.countP_append, List.countP_map,
      countP_created_comp, isCreatedEv]
  · simp [runProcess, List.countP_cons, List.countP_append, List.countP_map,
      countP_closed_comp, isClosedEv]

/-- C9: every operator input in the port prompt loop is parsed as a
base-10 integer (the parse yields `NaN` or an integer); a failed parse
(`NaN`) always fails `isPortValid`; and on such an input the loop prints
the invalidity message and repeats with nothing persisted. -/
theorem c9_nonnumeric_rejected :
    (∀ s : String, jsParseInt10 s = JSVal.nan ∨
      ∃ m : ℤ, jsParseInt10 s = JSVal.num (m : ℚ)) ∧
    (∀ s : String, jsParseInt10 s = JSVal.nan →
      isPortValid (jsParseInt10 s) = false) ∧
    (∀ (u : JSVal → Bool) (cfg : ConfigRec) (prompts logs rest : List String)
        (a : String),
      jsParseInt10 (jsTrimLower a) = JSVal.nan →
      promptLoop u cfg prompts logs (a :: rest)
        = promptLoop u cfg (prompts ++ [portQuestion])
            (logs ++ [invalidPortMsg]) rest) := by
  refine ⟨jsParseInt10_shape, ?_, ?_⟩
  · intro s h
    rw [h]
    decide
  · intro u cfg prompts logs rest a h
    simp [promptLoop, h, isPortValid, jsGE, jsLE, toNumber]

/-- C9 witness: the non-numeric input "abc". -/
theorem c9_witness :
    (jsParseInt10 "abc" = JSVal.nan ∨
      ∃ m : ℤ, jsParseInt10 "abc" = JSVal.num (m : ℚ)) ∧
    jsParseInt10 "abc" = JSVal.nan ∧
    isPortValid (jsParseInt10 "abc") = false ∧
    jsParseInt10 (jsTrimLower "abc") = JSVal.nan ∧
    promptLoop (fun _ => false) [("port", JSVal.num 80000)] [] [] ["abc"]
      = promptLoop (fun _ => false) [("port", JSVal.num 80000)]
          [portQuestion] [invalidPortMsg] [] :=
  ⟨c9_nonnumeric_rejected.1 "abc",
   by decide,
   c9_nonnumeric_rejected.2.1 "abc" (by decide),
   by decide,
   c9_nonnumeric_rejected.2.2 (fun _ => false) [("port", JSVal.num 80000)]
     [] [] [] "abc" (by decide)⟩
